import Mathlib

/-!
Verification of the saas_plan_enforcer add-on (plan-limits resolver and
enforcement guards) against its natural-language specification.

Shallow embedding notes.
Python dicts holding plan limits are modelled by the structure `Limits`
whose fields are `Option Int` / `Option (List PyStr)`; a missing key is
`none` and `dict.get(key, default)` is `Option.getD`.  Python strings used
in module-name pattern matching are modelled as lists of characters
(`PyStr`), for which `startswith` is `List.isPrefixOf`, `endswith('*')`
inspects the last character, and `pattern[:-1]` is `List.dropLast`.
Machine floats appear only in the attachment guard as
`file_size / (1024 * 1024)`; division of an integer below 2^53 by the
power of two 2^20 is exact in binary floating point, so the comparison is
modelled faithfully over `Rat`.  Exceptions: a `UserError` raised by a
guard is the `blocked` outcome; any other exception inside a guard try
block is the `Tried.exn` input and, per the source, is logged and the
operation proceeds (`allowed`).
-/

namespace SaasPlanEnforcer

/-- Python strings for module-name matching, as character lists. -/
abbrev PyStr := List Char

/-- The plan-limits dictionary returned by the resolver.  Each field is the
optional value of the corresponding key; `none` models a missing key. -/
structure Limits where
  max_users : Option Int
  max_companies : Option Int
  max_file_size_mb : Option Int
  max_external_emails_per_day : Option Int
  blocked_modules : Option (List PyStr)
deriving DecidableEq

/-- A limits dictionary with no keys (the Python literal `\x7b\x7d`). -/
def emptyLimits : Limits :=
  { max_users := none, max_companies := none, max_file_size_mb := none,
    max_external_emails_per_day := none, blocked_modules := none }

/-- The blocked-modules list of the emergency limits, from
`_get_emergency_limits` in saas_plan_manager.py. -/
def emergency_blocked_modules : List PyStr :=
  ["stock".data, "stock_*".data,
   "purchase".data, "purchase_*".data,
   "mrp".data, "mrp_*".data,
   "hr".data, "hr_*".data,
   "account_accountant".data,
   "mass_mailing*".data,
   "marketing_automation*".data]

/-- `_get_emergency_limits` from saas_plan_manager.py: the fixed fail-safe
constant used when no real limits are available. -/
def get_emergency_limits : Limits :=
  { max_users := some 3, max_companies := some 1, max_file_size_mb := some 10,
    max_external_emails_per_day := none,
    blocked_modules := some emergency_blocked_modules }

/-- The response envelope after the JSONRPC unwrap `data.get("result", data)`:
the truthiness of `result.get("success")` and the optional limits payload
`result.get("limits")`.  The `plan_name` entry is omitted: it is only stored
in the cache for display and no observable behaviour reads it back. -/
structure Envelope where
  success : Bool
  limits : Option Limits
deriving DecidableEq

/-- Outcome of the outbound `requests.post` call in
`_fetch_limits_from_server`: either an exception (network error, timeout,
or any other exception inside the try block) or an HTTP response with a
status code and a parsed body. -/
inductive HttpResult where
  | exn : HttpResult
  | response (status : Nat) (body : Envelope) : HttpResult
deriving DecidableEq

/-- State of the single persisted `saas.plan.manager` cache row:
no row at all, a row whose `cached_limits` text is falsy (empty), a row
whose text fails `json.loads`, or a row whose text deserializes to a
limits dictionary (the JSON round-trip of the stored blob). -/
inductive CacheState where
  | noRow : CacheState
  | rowEmptyBlob : CacheState
  | rowCorrupt : CacheState
  | rowGood (l : Limits) : CacheState
deriving DecidableEq

/-- `_fetch_limits_from_server` from saas_plan_manager.py.  Returns the
limits dictionary the Python function returns together with the cache
state after the call (`_update_cache` overwrites the row on the success
path; `json.dumps` followed by `json.loads` is the identity on the
modelled dictionaries).  On any exception the function returns the
emergency limits; on a non-200 status it returns the emergency limits;
on a success envelope it returns `result.get("limits", \x7b\x7d)` and
updates the cache; on an error envelope it returns
`result.get("limits", _get_emergency_limits())` without touching the cache. -/
def fetch_limits_from_server (r : HttpResult) (st : CacheState) :
    Limits × CacheState :=
  match r with
  | HttpResult.exn => (get_emergency_limits, st)
  | HttpResult.response status body =>
    if status = 200 then
      if body.success then
        let limits := body.limits.getD emptyLimits
        (limits, CacheState.rowGood limits)
      else
        (body.limits.getD get_emergency_limits, st)
    else
      (get_emergency_limits, st)

set_option linter.unusedVariables false in
/-- `get_plan_limits` from saas_plan_manager.py.  Always fetches first;
keeps the fetched value when `limits and limits.get("max_users", -1) > 0`
(the truthiness conjunct is redundant: a falsy dictionary has no
`max_users` key, so the `.get` default -1 already fails the comparison);
otherwise falls back to the cache row when it deserializes, and to the
emergency limits when it does not.  The `force_refresh` parameter is
unused, exactly as in the source. -/
def get_plan_limits (force_refresh : Bool) (r : HttpResult) (st : CacheState) :
    Limits × CacheState :=
  let fetched := fetch_limits_from_server r st
  if fetched.1.max_users.getD (-1) > 0 then fetched
  else
    match fetched.2 with
    | CacheState.rowGood cached => (cached, CacheState.rowGood cached)
    | st2 => (get_emergency_limits, st2)

/-- Outcome of a guard hook: the operation proceeds to `super().create`
(resp. write/unlink), or a `UserError` is raised and the operation is
blocked before any change happens. -/
inductive GuardResult where
  | allowed : GuardResult
  | blocked : GuardResult
deriving DecidableEq

/-- Outcome of the body of a guard try block up to the limit comparison:
the limits (or resolved value) were obtained, or some exception other
than `UserError` occurred while obtaining or checking them. -/
inductive Tried (α : Type) where
  | ok (a : α) : Tried α
  | exn : Tried α
deriving DecidableEq

/-- One entry of `vals_list` in `res.users.create`: only the truthiness of
`vals.get("share", False)` is read. -/
structure UserVals where
  share : Bool
deriving DecidableEq

/-- `len([v for v in vals_list if not v.get("share", False)])` from
res_users.py. -/
def new_users_count (vals_list : List UserVals) : Nat :=
  (vals_list.filter (fun v => !v.share)).length

/-- The limit comparison of `res.users.create` (res_users.py): when
`max_users > 0`, block if the current internal-user count plus the
non-share entries being created exceeds it. -/
def users_create_check (limits : Limits) (current_users : Nat)
    (vals_list : List UserVals) : GuardResult :=
  let max_users := limits.max_users.getD (-1)
  if max_users > 0 then
    if (current_users : Int) + new_users_count vals_list > max_users then
      GuardResult.blocked
    else GuardResult.allowed
  else GuardResult.allowed

/-- `res.users.create` with its surrounding try block: any non-UserError
exception is logged and the creation proceeds. -/
def users_create (t : Tried Limits) (current_users : Nat)
    (vals_list : List UserVals) : GuardResult :=
  match t with
  | Tried.exn => GuardResult.allowed
  | Tried.ok limits => users_create_check limits current_users vals_list

/-- One record of the `self` recordset in `res.users.write`: the `active`
and `share` flags read by the reactivation filter. -/
structure UserRecord where
  active : Bool
  share : Bool
deriving DecidableEq

/-- `len(self.filtered(lambda u: not u.active and not u.share))` from
`res.users.write` (res_users.py): the inactive internal users about to be
activated. -/
def users_to_activate_count (records : List UserRecord) : Nat :=
  (records.filter (fun u => !u.active && !u.share)).length

/-- The limit comparison inside the try block of `res.users.write`
(res_users.py): when `max_users > 0` and the filtered set of users to
activate is nonempty, block if the count of active internal users after
activation (`future_total`) exceeds the limit. -/
def users_write_check (limits : Limits) (records : List UserRecord)
    (current_active : Nat) : GuardResult :=
  let max_users := limits.max_users.getD (-1)
  if max_users > 0 then
    if 0 < users_to_activate_count records then
      if (current_active : Int) + users_to_activate_count records > max_users then
        GuardResult.blocked
      else GuardResult.allowed
    else GuardResult.allowed
  else GuardResult.allowed

/-- `res.users.write` (res_users.py): the guard runs only when
`vals.get("active") == True` (the `activating` flag); inside it, any
non-UserError exception is logged and the write proceeds. -/
def users_write (activating : Bool) (t : Tried Limits)
    (records : List UserRecord) (current_active : Nat) : GuardResult :=
  if activating then
    match t with
    | Tried.exn => GuardResult.allowed
    | Tried.ok limits => users_write_check limits records current_active
  else GuardResult.allowed

/-- The limit comparison of `res.company.create` (res_company.py):
`new_companies = len(vals_list)` is passed as a count. -/
def company_create_check (limits : Limits) (current_companies : Nat)
    (new_companies : Nat) : GuardResult :=
  let max_companies := limits.max_companies.getD (-1)
  if max_companies > 0 then
    if (current_companies : Int) + new_companies > max_companies then
      GuardResult.blocked
    else GuardResult.allowed
  else GuardResult.allowed

/-- `res.company.create` with its surrounding try block. -/
def company_create (t : Tried Limits) (current_companies : Nat)
    (new_companies : Nat) : GuardResult :=
  match t with
  | Tried.exn => GuardResult.allowed
  | Tried.ok limits => company_create_check limits current_companies new_companies

/-- One entry of `vals_list` in `mail.mail.create`: the recipient string;
`""` models a missing or falsy `email_to`. -/
structure MailVals where
  email_to : String
deriving DecidableEq

/-- `len([v for v in vals_list if v.get("email_to") and not
self._is_internal_email(v.get("email_to"))])` from mail_mail.py, with
`_is_internal_email` abstracted as an oracle (it reads the company domain
and the user directory from the database). -/
def external_emails_count (is_internal : String → Bool)
    (vals_list : List MailVals) : Nat :=
  (vals_list.filter (fun v => v.email_to != "" && !(is_internal v.email_to))).length

/-- The limit comparison of `mail.mail.create` (mail_mail.py): when
`max_external_emails_per_day > 0` and at least one external email is being
created, block if the daily counter plus the new external emails exceeds
the limit. -/
def mail_create_check (limits : Limits) (is_internal : String → Bool)
    (current_count : Nat) (vals_list : List MailVals) : GuardResult :=
  let max_emails := limits.max_external_emails_per_day.getD (-1)
  if max_emails > 0 then
    let e := external_emails_count is_internal vals_list
    if e > 0 then
      if (current_count : Int) + e > max_emails then GuardResult.blocked
      else GuardResult.allowed
    else GuardResult.allowed
  else GuardResult.allowed

/-- `mail.mail.create` with its surrounding try block. -/
def mail_create (t : Tried Limits) (is_internal : String → Bool)
    (current_count : Nat) (vals_list : List MailVals) : GuardResult :=
  match t with
  | Tried.exn => GuardResult.allowed
  | Tried.ok limits => mail_create_check limits is_internal current_count vals_list

/-- `ABSOLUTE_MAX_MB` from ir_attachment.py. -/
def ABSOLUTE_MAX_MB : Int := 100

/-- Verdict of the per-file size validation inside `ir.attachment.create`. -/
inductive AttachmentVerdict where
  | ok : AttachmentVerdict
  | tooBigSystem : AttachmentVerdict
  | tooBigPlan : AttachmentVerdict
deriving DecidableEq

/-- The per-file validation of `ir.attachment.create` (ir_attachment.py):
`size_mb = file_size / (1024 * 1024)`; reject above the absolute system
ceiling first, then above the plan limit when `max_mb > 0`.  `file_size`
is a byte count; the float division by the power of two 2^20 is exact, so
`Rat` reproduces the comparisons. -/
def attachment_size_check (max_mb : Int) (file_size : Nat) : AttachmentVerdict :=
  if 0 < file_size then
    let size_mb : Rat := (file_size : Rat) / (1024 * 1024)
    if size_mb > (ABSOLUTE_MAX_MB : Rat) then AttachmentVerdict.tooBigSystem
    else if max_mb > 0 ∧ size_mb > (max_mb : Rat) then AttachmentVerdict.tooBigPlan
    else AttachmentVerdict.ok
  else AttachmentVerdict.ok

/-- The plan-limit resolution of `ir.attachment.create`: the synced
`saas.plan.file_size_limit` parameter when set, otherwise
`limits.get("max_file_size_mb", 20)` from the resolver. -/
def resolve_max_mb (file_size_param : Option Int) (limits : Limits) : Int :=
  match file_size_param with
  | some m => m
  | none => limits.max_file_size_mb.getD 20

/-- `ir.attachment.create` with its surrounding try block: on the resolved
per-file limit, validate every entry of `vals_list` (the loop raises on
the first violating file, so the batch is blocked exactly when some file
violates); any non-UserError exception lets the upload proceed. -/
def attachment_create (t : Tried Int) (file_sizes : List Nat) : GuardResult :=
  match t with
  | Tried.exn => GuardResult.allowed
  | Tried.ok max_mb =>
    if file_sizes.any (fun fs => attachment_size_check max_mb fs != AttachmentVerdict.ok) then
      GuardResult.blocked
    else GuardResult.allowed

/-- `_is_module_blocked` from ir_module_module.py: a pattern ending in `*`
blocks every module name starting with the part before the `*`; any other
pattern blocks only the exact name. -/
def is_module_blocked (module_name : PyStr) (blocked_list : List PyStr) : Bool :=
  blocked_list.any fun patt =>
    if patt.getLast? == some '*' then
      List.isPrefixOf patt.dropLast module_name
    else
      module_name == patt

/-- `_validate_module_installation` from ir_module_module.py, inside its
try block: block when the module itself is blocked (the source guards this
with the truthiness of `blocked_modules`) or when any dependency name is
blocked; any non-UserError exception lets the installation proceed. -/
def validate_module_installation (t : Tried Limits) (module_name : PyStr)
    (dep_names : List PyStr) : GuardResult :=
  match t with
  | Tried.exn => GuardResult.allowed
  | Tried.ok limits =>
    let blocked := limits.blocked_modules.getD []
    if blocked ≠ [] ∧ is_module_blocked module_name blocked then GuardResult.blocked
    else if dep_names.any (fun d => is_module_blocked d blocked) then GuardResult.blocked
    else GuardResult.allowed

/-- `PROTECTED_PARAMS` from ir_config_parameter.py. -/
def PROTECTED_PARAMS : List String :=
  ["saas.operations.secret",
   "saas.master.url",
   "web.max_file_upload_size",
   "saas.plan.file_size_limit"]

/-- The ambient execution context read by `_check_admin_secret`: the login
of the current user, the truthiness of the `install_mode`, `module` and
`install_filename` context keys, and whether the 10-frame stack walk finds
a frame whose filename contains `load_data` or whose function name
contains `init`. -/
structure EnvCtx where
  login : String
  install_mode : Bool
  module_in_context : Bool
  install_filename : Bool
  stack_has_init : Bool
deriving DecidableEq

/-- `_check_admin_secret` from ir_config_parameter.py, as the predicate
"the mutation is permitted" (the source returns True in the permitted
branches and raises `UserError` otherwise). -/
def check_admin_secret (c : EnvCtx) : Bool :=
  if c.login == "1028" then true
  else if c.install_mode || c.module_in_context then true
  else if c.install_filename then true
  else if c.stack_has_init then true
  else false

/-- `vals.get("key") in PROTECTED_PARAMS` for a create entry: a missing
key (`none`) is never in the list. -/
def key_protected (k : Option String) : Bool :=
  match k with
  | some s => PROTECTED_PARAMS.contains s
  | none => false

/-- `ir.config_parameter.create` (ir_config_parameter.py): the loop raises
on the first protected key whose check fails, before `super().create`
runs, so the batch is blocked exactly when some entry has a protected key
and the check fails. -/
def config_create (c : EnvCtx) (vals_keys : List (Option String)) : GuardResult :=
  if vals_keys.any key_protected && !check_admin_secret c then GuardResult.blocked
  else GuardResult.allowed

/-- `ir.config_parameter.write` (ir_config_parameter.py): guarded on the
keys of the records being written, before `super().write` runs. -/
def config_write (c : EnvCtx) (record_keys : List String) : GuardResult :=
  if record_keys.any (fun k => PROTECTED_PARAMS.contains k) && !check_admin_secret c then
    GuardResult.blocked
  else GuardResult.allowed

/-- `ir.config_parameter.unlink` (ir_config_parameter.py): same guard as
write, before `super().unlink` runs. -/
def config_unlink (c : EnvCtx) (record_keys : List String) : GuardResult :=
  if record_keys.any (fun k => PROTECTED_PARAMS.contains k) && !check_admin_secret c then
    GuardResult.blocked
  else GuardResult.allowed

/-- The system-initialization contexts accepted by `_check_admin_secret`,
as stated by the spec: an install/module context key, an XML data-load
filename, or an init/load_data frame on the stack. -/
def init_context (c : EnvCtx) : Prop :=
  c.install_mode = true ∨ c.module_in_context = true ∨
  c.install_filename = true ∨ c.stack_has_init = true

/-- Whether the persisted cache is unusable for fallback: no row, a falsy
blob, or a blob that fails to deserialize. -/
def no_usable_cache (st : CacheState) : Bool :=
  match st with
  | CacheState.rowGood _ => false
  | _ => true

/-- A concrete cached limits dictionary used as input for the fallback
scenarios. -/
def cached_plan_limits : Limits :=
  { emptyLimits with max_users := some 5, max_companies := some 2,
                     max_file_size_mb := some 50 }

/-- A concrete limits payload carried by an error envelope. -/
def envelope_payload_limits : Limits :=
  { emptyLimits with max_users := some 7 }

end SaasPlanEnforcer

/-! Theorems settling the claims C1 to C10. -/

namespace SaasPlanEnforcer

/-- Helper: the permitted cases of `_check_admin_secret` are exactly the
privileged login or a system-initialization context. -/
theorem check_admin_secret_iff (c : EnvCtx) :
    check_admin_secret c = true ↔ (c.login = "1028" ∨ init_context c) := by
  unfold check_admin_secret init_context
  by_cases h1 : c.login = "1028" <;>
  by_cases h2 : c.install_mode = true <;>
  by_cases h3 : c.module_in_context = true <;>
  by_cases h4 : c.install_filename = true <;>
  by_cases h5 : c.stack_has_init = true <;>
  simp_all

/-- Helper: a protected key among the record keys makes the any-scan true. -/
theorem protected_keys_any (record_keys : List String)
    (h : ∃ k ∈ record_keys, k ∈ PROTECTED_PARAMS) :
    (record_keys.any fun k => PROTECTED_PARAMS.contains k) = true := by
  rw [List.any_eq_true]
  obtain ⟨k, hk, hkp⟩ := h
  exact ⟨k, hk, by simpa using hkp⟩

/-- C1: the claim says that when the live fetch fails and a deserializable
cache row exists, `get_plan_limits` returns the cached limits.  The code
does not: on a network error `_fetch_limits_from_server` returns the
emergency dictionary, whose `max_users` of 3 passes the validity test in
`get_plan_limits`, so the emergency limits are returned and the cache row
holding `max_users = 5` is never consulted.  This contradicts the
docstring and inline comments of `get_plan_limits` itself. -/
theorem c1_fetch_failure_bypasses_cache :
    get_plan_limits false HttpResult.exn (CacheState.rowGood cached_plan_limits)
      = (get_emergency_limits, CacheState.rowGood cached_plan_limits) ∧
    get_emergency_limits ≠ cached_plan_limits :=
  ⟨by decide, by decide⟩

/-- C2 counterexample: an attachment of exactly 100.0 MB (104857600 bytes)
is NOT rejected by the absolute system ceiling — the comparison in the
source is strict (`size_mb > 100`), so the verdict is `ok`, refuting the
claim that 100.0 MB exactly is rejected. -/
theorem c2_exact_100mb_accepted_counterexample :
    attachment_size_check (-1) (100 * 1024 * 1024) = AttachmentVerdict.ok := by
  norm_num [attachment_size_check, ABSOLUTE_MAX_MB]

/-- C2 amended: an attachment of exactly 100.0 MB is accepted against the
absolute system ceiling (the boundary comparison is strict), 99.9 MB
(104752742 bytes) is accepted, and every size strictly above 100 MB is
rejected with the system-ceiling error regardless of the plan limit. -/
theorem c2_absolute_ceiling_strict :
    attachment_size_check (-1) (100 * 1024 * 1024) = AttachmentVerdict.ok ∧
    attachment_size_check (-1) 104752742 = AttachmentVerdict.ok ∧
    ∀ (max_mb : Int) (file_size : Nat), 100 * 1024 * 1024 < file_size →
      attachment_size_check max_mb file_size = AttachmentVerdict.tooBigSystem := by
  refine ⟨by norm_num [attachment_size_check, ABSOLUTE_MAX_MB],
          by norm_num [attachment_size_check, ABSOLUTE_MAX_MB],
          fun max_mb file_size h => ?_⟩
  unfold attachment_size_check
  rw [if_pos (by omega), if_pos]
  have h2 : ((100 * 1024 * 1024 : Nat) : Rat) < (file_size : Rat) := by exact_mod_cast h
  rw [gt_iff_lt, ABSOLUTE_MAX_MB]
  push_cast
  rw [lt_div_iff₀ (by norm_num)]
  push_cast at h2
  linarith

/-- C2 witness: one byte above 100 MB is rejected by the system ceiling. -/
theorem c2_absolute_ceiling_strict_witness :
    100 * 1024 * 1024 < 104857601 ∧
    attachment_size_check (-1) 104857601 = AttachmentVerdict.tooBigSystem :=
  ⟨by norm_num, c2_absolute_ceiling_strict.2.2 (-1) 104857601 (by norm_num)⟩

/-- C3 counterexample: with no cache row at all, a 200 response whose
envelope has `success` false but carries a limits payload with
`max_users = 7` makes `get_plan_limits` return that payload, not the
emergency constant — refuting the claim for the error-envelope failure
mode. -/
theorem c3_error_envelope_payload_counterexample :
    get_plan_limits false (HttpResult.response 200 ⟨false, some envelope_payload_limits⟩)
        CacheState.noRow = (envelope_payload_limits, CacheState.noRow) ∧
    envelope_payload_limits ≠ get_emergency_limits :=
  ⟨by decide, by decide⟩

/-- C3 amended: when no usable cache exists and the live fetch fails with
an exception (network error or timeout), a non-200 status, or an error
envelope that carries no limits payload with `max_users > 0`,
`get_plan_limits` returns exactly the fixed emergency limits constant
(max_users 3, max_companies 1, max_file_size_mb 10, the fixed
blocked_modules list); an error envelope whose payload has
`max_users > 0` is returned as-is instead. -/
theorem c3_emergency_limits_when_no_cache (st : CacheState)
    (h : no_usable_cache st = true) :
    (get_plan_limits false HttpResult.exn st).1 = get_emergency_limits ∧
    (∀ (status : Nat) (body : Envelope), status ≠ 200 →
      (get_plan_limits false (HttpResult.response status body) st).1
        = get_emergency_limits) ∧
    (get_plan_limits false (HttpResult.response 200 ⟨false, none⟩) st).1
      = get_emergency_limits ∧
    (∀ l : Limits, l.max_users.getD (-1) ≤ 0 →
      (get_plan_limits false (HttpResult.response 200 ⟨false, some l⟩) st).1
        = get_emergency_limits) := by
  cases st with
  | rowGood l => simp [no_usable_cache] at h
  | noRow =>
    refine ⟨by decide, fun status body hs => ?_, by decide, fun l hl => ?_⟩
    · simp [get_plan_limits, fetch_limits_from_server, hs]
    · have hnot : ¬ l.max_users.getD (-1) > 0 := by omega
      simp [get_plan_limits, fetch_limits_from_server, hnot]
  | rowEmptyBlob =>
    refine ⟨by decide, fun status body hs => ?_, by decide, fun l hl => ?_⟩
    · simp [get_plan_limits, fetch_limits_from_server, hs]
    · have hnot : ¬ l.max_users.getD (-1) > 0 := by omega
      simp [get_plan_limits, fetch_limits_from_server, hnot]
  | rowCorrupt =>
    refine ⟨by decide, fun status body hs => ?_, by decide, fun l hl => ?_⟩
    · simp [get_plan_limits, fetch_limits_from_server, hs]
    · have hnot : ¬ l.max_users.getD (-1) > 0 := by omega
      simp [get_plan_limits, fetch_limits_from_server, hnot]

/-- C3 witness: with no cache row and a network error, the emergency
limits are returned. -/
theorem c3_emergency_limits_when_no_cache_witness :
    no_usable_cache CacheState.noRow = true ∧
    (get_plan_limits false HttpResult.exn CacheState.noRow).1 = get_emergency_limits :=
  ⟨by decide, (c3_emergency_limits_when_no_cache CacheState.noRow (by decide)).1⟩

/-- C4: the module blocked-check returns true exactly when some pattern in
the list either equals the module name (no trailing star) or, with a
trailing star, has the part before the star as a prefix of the name; in
particular `stock*` matches `stock`, `stock_account` and `stocked` (the
prefix rule at the exact boundary), while the starless pattern `stock`
does not match `stocked`. -/
theorem c4_module_blocked_iff :
    (∀ (n : PyStr) (ps : List PyStr),
      is_module_blocked n ps = true ↔
        ∃ p ∈ ps, (p.getLast? ≠ some '*' ∧ p = n) ∨
                   (p.getLast? = some '*' ∧ p.dropLast <+: n)) ∧
    is_module_blocked "stock".data ["stock*".data] = true ∧
    is_module_blocked "stock_account".data ["stock*".data] = true ∧
    is_module_blocked "stocked".data ["stock*".data] = true ∧
    is_module_blocked "stocked".data ["stock".data] = false := by
  refine ⟨fun n ps => ?_, by decide, by decide, by decide, by decide⟩
  unfold is_module_blocked
  rw [List.any_eq_true]
  apply exists_congr
  intro p
  apply and_congr_right
  intro _
  by_cases hstar : p.getLast? = some '*'
  · rw [if_pos (by simp [hstar]), List.isPrefixOf_iff_prefix]
    constructor
    · intro h
      exact Or.inr ⟨hstar, h⟩
    · rintro (⟨h, -⟩ | ⟨-, h⟩)
      · exact absurd hstar h
      · exact h
  · rw [if_neg (by simp [hstar]), beq_iff_eq]
    constructor
    · intro h
      exact Or.inl ⟨hstar, h.symm⟩
    · rintro (⟨-, h⟩ | ⟨h, -⟩)
      · exact h.symm
      · exact absurd h hstar

/-- C4 witness: an exact starless pattern matches its own name. -/
theorem c4_module_blocked_iff_witness :
    is_module_blocked "purchase".data ["purchase".data, "mrp*".data] = true :=
  (c4_module_blocked_iff.1 "purchase".data ["purchase".data, "mrp*".data]).mpr
    ⟨"purchase".data, by decide, Or.inl ⟨by decide, rfl⟩⟩

/-- C5: for every limit L > 0 returned by the resolver, the user-count,
company-count and daily external-email guards permit an operation that
brings the relevant count to exactly L and block one that would bring it
to L + 1 (for the email guard, an operation that raises the count must
create at least one external email). -/
theorem c5_counting_guards_boundary (L : Int) (hL : 0 < L) :
    (∀ (l : Limits) (current : Nat) (vals : List UserVals),
      l.max_users.getD (-1) = L →
        ((current : Int) + new_users_count vals = L →
          users_create_check l current vals = GuardResult.allowed) ∧
        ((current : Int) + new_users_count vals = L + 1 →
          users_create_check l current vals = GuardResult.blocked)) ∧
    (∀ (l : Limits) (current new : Nat),
      l.max_companies.getD (-1) = L →
        ((current : Int) + new = L →
          company_create_check l current new = GuardResult.allowed) ∧
        ((current : Int) + new = L + 1 →
          company_create_check l current new = GuardResult.blocked)) ∧
    (∀ (l : Limits) (is_internal : String → Bool) (current : Nat) (vals : List MailVals),
      l.max_external_emails_per_day.getD (-1) = L →
        ((current : Int) + external_emails_count is_internal vals = L →
          mail_create_check l is_internal current vals = GuardResult.allowed) ∧
        (1 ≤ external_emails_count is_internal vals →
          (current : Int) + external_emails_count is_internal vals = L + 1 →
          mail_create_check l is_internal current vals = GuardResult.blocked)) := by
  refine ⟨fun l current vals hl => ⟨fun hc => ?_, fun hc => ?_⟩,
          fun l current new hl => ⟨fun hc => ?_, fun hc => ?_⟩,
          fun l is_internal current vals hl => ⟨fun hc => ?_, fun he hc => ?_⟩⟩
  · simp only [users_create_check, hl]
    rw [if_pos hL, if_neg (by omega)]
  · simp only [users_create_check, hl]
    rw [if_pos hL, if_pos (by omega)]
  · simp only [company_create_check, hl]
    rw [if_pos hL, if_neg (by omega)]
  · simp only [company_create_check, hl]
    rw [if_pos hL, if_pos (by omega)]
  · simp only [mail_create_check, hl]
    rw [if_pos hL]
    by_cases he : 0 < external_emails_count is_internal vals
    · rw [if_pos he, if_neg (by omega)]
    · rw [if_neg he]
  · simp only [mail_create_check, hl]
    rw [if_pos hL, if_pos (by omega), if_pos (by omega)]

/-- C5 witness: with max_users 3, reaching exactly 3 users is allowed and
reaching 4 is blocked. -/
theorem c5_counting_guards_boundary_witness :
    (0 : Int) < 3 ∧
    users_create_check { emptyLimits with max_users := some 3 } 2 [⟨false⟩]
      = GuardResult.allowed ∧
    users_create_check { emptyLimits with max_users := some 3 } 3 [⟨false⟩]
      = GuardResult.blocked := by
  have h := c5_counting_guards_boundary 3 (by norm_num)
  exact ⟨by norm_num,
    (h.1 _ 2 [⟨false⟩] (by decide)).1 (by decide),
    (h.1 _ 3 [⟨false⟩] (by decide)).2 (by decide)⟩

/-- C6: every enforcement guard — user creation, user reactivation on
write, company creation, external email, attachment upload and module
installation — fails open on its own internal errors (a non-UserError
exception while obtaining or checking limits lets the create, write or
install proceed) and fails closed when limits were obtained and are
exceeded, raising the user-facing error that blocks the operation (the
reactivation guard checks only a nonempty set of users to activate,
matching its source gate). -/
theorem c6_guards_fail_open_fail_closed :
    (∀ (current : Nat) (vals : List UserVals),
      users_create Tried.exn current vals = GuardResult.allowed) ∧
    (∀ (activating : Bool) (records : List UserRecord) (current : Nat),
      users_write activating Tried.exn records current = GuardResult.allowed) ∧
    (∀ (current new : Nat),
      company_create Tried.exn current new = GuardResult.allowed) ∧
    (∀ (is_internal : String → Bool) (current : Nat) (vals : List MailVals),
      mail_create Tried.exn is_internal current vals = GuardResult.allowed) ∧
    (∀ (file_sizes : List Nat),
      attachment_create Tried.exn file_sizes = GuardResult.allowed) ∧
    (∀ (mname : PyStr) (deps : List PyStr),
      validate_module_installation Tried.exn mname deps = GuardResult.allowed) ∧
    (∀ (l : Limits) (current : Nat) (vals : List UserVals),
      0 < l.max_users.getD (-1) →
      l.max_users.getD (-1) < (current : Int) + new_users_count vals →
      users_create (Tried.ok l) current vals = GuardResult.blocked) ∧
    (∀ (l : Limits) (records : List UserRecord) (current : Nat),
      0 < l.max_users.getD (-1) →
      0 < users_to_activate_count records →
      l.max_users.getD (-1) < (current : Int) + users_to_activate_count records →
      users_write true (Tried.ok l) records current = GuardResult.blocked) ∧
    (∀ (l : Limits) (current new : Nat),
      0 < l.max_companies.getD (-1) →
      l.max_companies.getD (-1) < (current : Int) + new →
      company_create (Tried.ok l) current new = GuardResult.blocked) ∧
    (∀ (l : Limits) (is_internal : String → Bool) (current : Nat) (vals : List MailVals),
      0 < l.max_external_emails_per_day.getD (-1) →
      0 < external_emails_count is_internal vals →
      l.max_external_emails_per_day.getD (-1)
        < (current : Int) + external_emails_count is_internal vals →
      mail_create (Tried.ok l) is_internal current vals = GuardResult.blocked) ∧
    (∀ (max_mb : Int) (file_sizes : List Nat) (fs : Nat),
      fs ∈ file_sizes → attachment_size_check max_mb fs ≠ AttachmentVerdict.ok →
      attachment_create (Tried.ok max_mb) file_sizes = GuardResult.blocked) ∧
    (∀ (l : Limits) (mname : PyStr) (deps : List PyStr),
      l.blocked_modules.getD [] ≠ [] →
      is_module_blocked mname (l.blocked_modules.getD []) = true →
      validate_module_installation (Tried.ok l) mname deps = GuardResult.blocked) := by
  refine ⟨fun current vals => rfl,
          fun activating records current => by cases activating <;> rfl,
          fun current new => rfl,
          fun is_internal current vals => rfl,
          fun file_sizes => rfl,
          fun mname deps => rfl,
          fun l current vals h0 hx => ?_,
          fun l records current h0 ha hx => ?_,
          fun l current new h0 hx => ?_,
          fun l is_internal current vals h0 he hx => ?_,
          fun max_mb file_sizes fs hmem hne => ?_,
          fun l mname deps hne hb => ?_⟩
  · show users_create_check l current vals = GuardResult.blocked
    simp only [users_create_check]
    rw [if_pos h0, if_pos (by omega)]
  · show users_write_check l records current = GuardResult.blocked
    simp only [users_write_check]
    rw [if_pos h0, if_pos ha, if_pos (by omega)]
  · show company_create_check l current new = GuardResult.blocked
    simp only [company_create_check]
    rw [if_pos h0, if_pos (by omega)]
  · show mail_create_check l is_internal current vals = GuardResult.blocked
    simp only [mail_create_check]
    rw [if_pos h0, if_pos he, if_pos (by omega)]
  · show (if file_sizes.any
            (fun fs => attachment_size_check max_mb fs != AttachmentVerdict.ok)
          then GuardResult.blocked else GuardResult.allowed) = GuardResult.blocked
    rw [if_pos]
    rw [List.any_eq_true]
    exact ⟨fs, hmem, by simpa using hne⟩
  · show (if l.blocked_modules.getD [] ≠ [] ∧
            is_module_blocked mname (l.blocked_modules.getD []) = true
          then GuardResult.blocked
          else if deps.any (fun d => is_module_blocked d (l.blocked_modules.getD []))
          then GuardResult.blocked else GuardResult.allowed) = GuardResult.blocked
    rw [if_pos ⟨hne, hb⟩]

/-- C6 witness: with max_users 1 and five existing users, the user-create
guard blocks even an empty batch, and reactivating one archived internal
user on top of one active user is blocked, while an internal error lets
the operations through. -/
theorem c6_guards_fail_open_fail_closed_witness :
    0 < (({ emptyLimits with max_users := some 1 } : Limits).max_users.getD (-1)) ∧
    users_create (Tried.ok { emptyLimits with max_users := some 1 }) 5 []
      = GuardResult.blocked ∧
    users_write true (Tried.ok { emptyLimits with max_users := some 1 })
      [⟨false, false⟩] 1 = GuardResult.blocked :=
  ⟨by decide,
   c6_guards_fail_open_fail_closed.2.2.2.2.2.2.1
     { emptyLimits with max_users := some 1 } 5 [] (by decide) (by decide),
   c6_guards_fail_open_fail_closed.2.2.2.2.2.2.2.1
     { emptyLimits with max_users := some 1 } [⟨false, false⟩] 1
     (by decide) (by decide) (by decide)⟩

/-- C7: a resolver value of -1 for max_users (and the matching sentinel of
the company and email guards) disables the limit check, permitting the
operation whatever the current count is. -/
theorem c7_unlimited_sentinel :
    (∀ (l : Limits) (current : Nat) (vals : List UserVals),
      l.max_users = some (-1) →
        users_create_check l current vals = GuardResult.allowed) ∧
    (∀ (l : Limits) (current new : Nat),
      l.max_companies = some (-1) →
        company_create_check l current new = GuardResult.allowed) ∧
    (∀ (l : Limits) (is_internal : String → Bool) (current : Nat) (vals : List MailVals),
      l.max_external_emails_per_day = some (-1) →
        mail_create_check l is_internal current vals = GuardResult.allowed) := by
  refine ⟨fun l current vals hl => ?_, fun l current new hl => ?_,
          fun l is_internal current vals hl => ?_⟩
  · simp [users_create_check, hl]
  · simp [company_create_check, hl]
  · simp [mail_create_check, hl]

/-- C7 witness: with the -1 sentinel, creating a user on top of 1000
existing users is allowed. -/
theorem c7_unlimited_sentinel_witness :
    users_create_check { emptyLimits with max_users := some (-1) } 1000 [⟨false⟩]
      = GuardResult.allowed :=
  c7_unlimited_sentinel.1 _ 1000 [⟨false⟩] rfl

/-- C8: mutating a configuration parameter whose key is protected is
blocked (the UserError is raised before the super call, leaving the
parameter unchanged) exactly when the current user is not the privileged
login 1028 and no system-initialization context applies; the privileged
login and initialization contexts proceed. -/
theorem c8_protected_params_guard (c : EnvCtx) :
    (∀ (record_keys : List String), (∃ k ∈ record_keys, k ∈ PROTECTED_PARAMS) →
      ((config_write c record_keys = GuardResult.blocked ↔
          ¬(c.login = "1028" ∨ init_context c)) ∧
       (config_unlink c record_keys = GuardResult.blocked ↔
          ¬(c.login = "1028" ∨ init_context c)))) ∧
    (∀ (vals_keys : List (Option String)),
      (∃ k, some k ∈ vals_keys ∧ k ∈ PROTECTED_PARAMS) →
      (config_create c vals_keys = GuardResult.blocked ↔
        ¬(c.login = "1028" ∨ init_context c))) := by
  have hiff := check_admin_secret_iff c
  constructor
  · intro record_keys hkeys
    have hany := protected_keys_any record_keys hkeys
    constructor <;>
    · simp only [config_write, config_unlink, hany, Bool.true_and]
      by_cases hcs : check_admin_secret c = true
      · simp [hcs, hiff.mp hcs]
      · have hfalse : check_admin_secret c = false := by
          cases hcase : check_admin_secret c
          · rfl
          · exact absurd hcase hcs
        have hno : ¬(c.login = "1028" ∨ init_context c) := fun hor => by
          rw [hiff.mpr hor] at hfalse
          exact absurd hfalse (by simp)
        simp [hfalse]
        exact ⟨fun h => hno (Or.inl h), fun h => hno (Or.inr h)⟩
  · intro vals_keys hkeys
    have hany : vals_keys.any key_protected = true := by
      rw [List.any_eq_true]
      obtain ⟨k, hk, hkp⟩ := hkeys
      exact ⟨some k, hk, by simpa [key_protected] using hkp⟩
    simp only [config_create, hany, Bool.true_and]
    by_cases hcs : check_admin_secret c = true
    · simp [hcs, hiff.mp hcs]
    · have hfalse : check_admin_secret c = false := by
        cases hcase : check_admin_secret c
        · rfl
        · exact absurd hcase hcs
      have hno : ¬(c.login = "1028" ∨ init_context c) := fun hor => by
        rw [hiff.mpr hor] at hfalse
        exact absurd hfalse (by simp)
      simp [hfalse]
      exact ⟨fun h => hno (Or.inl h), fun h => hno (Or.inr h)⟩

/-- C8 witness: an unprivileged user outside any initialization context is
blocked from writing the protected master-url parameter. -/
theorem c8_protected_params_guard_witness :
    config_write ⟨"someone", false, false, false, false⟩ ["saas.master.url"]
      = GuardResult.blocked :=
  ((c8_protected_params_guard ⟨"someone", false, false, false, false⟩).1
      ["saas.master.url"] ⟨"saas.master.url", by decide, by decide⟩).1.mpr
    (by simp [init_context])

/-- C9: a resolved limit of 0 disables each counting guard (usage is
permitted at any count) and, for the attachment plan check, a limit of 0
behaves identically to the -1 unlimited sentinel; the user guard at 0
also coincides with the guard at -1. -/
theorem c9_zero_limit_disables_enforcement :
    (∀ (l : Limits) (current : Nat) (vals : List UserVals),
      l.max_users = some 0 →
        users_create_check l current vals = GuardResult.allowed) ∧
    (∀ (l : Limits) (current new : Nat),
      l.max_companies = some 0 →
        company_create_check l current new = GuardResult.allowed) ∧
    (∀ (l : Limits) (is_internal : String → Bool) (current : Nat) (vals : List MailVals),
      l.max_external_emails_per_day = some 0 →
        mail_create_check l is_internal current vals = GuardResult.allowed) ∧
    (∀ (file_size : Nat),
      attachment_size_check 0 file_size = attachment_size_check (-1) file_size) ∧
    (∀ (l l2 : Limits) (current : Nat) (vals : List UserVals),
      l.max_users = some 0 → l2.max_users = some (-1) →
        users_create_check l current vals = users_create_check l2 current vals) := by
  refine ⟨fun l current vals hl => by simp [users_create_check, hl],
          fun l current new hl => by simp [company_create_check, hl],
          fun l is_internal current vals hl => by simp [mail_create_check, hl],
          fun file_size => ?_,
          fun l l2 current vals hl hl2 => by
            simp [users_create_check, hl, hl2]⟩
  unfold attachment_size_check
  norm_num

/-- C9 witness: with a limit of 0, creating a user on top of 1000 existing
users is allowed, and a 953.7 MB attachment gets the same verdict under
plan limit 0 as under -1. -/
theorem c9_zero_limit_disables_enforcement_witness :
    users_create_check { emptyLimits with max_users := some 0 } 1000 [⟨false⟩]
      = GuardResult.allowed ∧
    attachment_size_check 0 999999999 = attachment_size_check (-1) 999999999 :=
  ⟨c9_zero_limit_disables_enforcement.1 _ 1000 [⟨false⟩] rfl,
   c9_zero_limit_disables_enforcement.2.2.2.1 999999999⟩

/-- C10: `get_plan_limits` is insensitive to its force_refresh argument —
for every fetch outcome and cache state, both argument values perform the
same steps and return the same limits and state. -/
theorem c10_force_refresh_no_effect (fr1 fr2 : Bool) (r : HttpResult)
    (st : CacheState) :
    get_plan_limits fr1 r st = get_plan_limits fr2 r st := rfl

end SaasPlanEnforcer
